import Mathlib

/-! # libchmod: a shallow embedding of `libchmod.c`

`libchmod.c` interposes `chmod(path, mode)`.  It binds the real `chmod` through
`dlopen`/`dlsym`, canonicalises the path, filters it by a regular expression and, for
directories and regular files, checks the requested mode against an allowed and a
required mask read from the environment.

The embedding passes `errno` explicitly through every library call, each of which may
change it even when it succeeds, and records every invocation of the real `chmod` (and
every `dlclose`) in the outcome.  The C library and the operating system are the fields
of `World`.  Integers follow the LP64 data model: `mode_t` is an unsigned 32-bit value,
`long` is a signed 64-bit value.  The bitwise `|` of two `long` values is `Int.lor` (two's
complement on mathematical integers, which never leaves the `long` range).

The local `char **endptr` of `chmod` is never assigned, and is passed to `strtol`, which
stores through it unless it is null.  Its value is a field of `World`; a run in which the
store hits an unwritable address is killed, and one in which it overwrites memory is not
followed further.
-/

namespace Libchmod

/-! ## Constants of the C library headers -/

/-- The value `#define CHMOD_ERR (-1)` of the source. -/
def CHMOD_ERR : Int := -1

/-- The errno code `EPERM` (operation not permitted). -/
def EPERM : Nat := 1

/-- The errno code `ENOMEM` (out of memory). -/
def ENOMEM : Nat := 12

/-- The errno code `ERANGE` (result out of range), stored by `strtol` on overflow. -/
def ERANGE : Nat := 34

/-- The largest `long` (LP64). -/
def LONG_MAX : Int := 2 ^ 63 - 1

/-- The smallest `long` (LP64). -/
def LONG_MIN : Int := -(2 ^ 63)

/-- The file-type bit field of `st_mode`, octal 0170000. -/
def S_IFMT : Nat := 0o170000

/-- The file type of a directory, octal 0040000. -/
def S_IFDIR : Nat := 0o040000

/-- The file type of a regular file, octal 0100000. -/
def S_IFREG : Nat := 0o100000

/-- The macro `S_ISDIR(m)`: `((m) & S_IFMT) == S_IFDIR`. -/
def S_ISDIR (m : Nat) : Bool := (m &&& S_IFMT) == S_IFDIR

/-- The macro `S_ISREG(m)`: `((m) & S_IFMT) == S_IFREG`. -/
def S_ISREG (m : Nat) : Bool := (m &&& S_IFMT) == S_IFREG

/-! ## `strtol` in base 8 -/

/-- The C predicate `isspace` in the "C" locale. -/
def isspace (c : Char) : Bool :=
  c == ' ' || c == '\t' || c == '\n' || c == '\x0b' || c == '\x0c' || c == '\r'

/-- The value of an octal digit, or `none` for any other character. -/
def octDigit (c : Char) : Option Nat :=
  if '0' ≤ c ∧ c ≤ '7' then some (c.toNat - '0'.toNat) else none

/-- Drops the leading white space that `strtol` skips. -/
def skipSpace : List Char → List Char
  | [] => []
  | c :: cs => if isspace c then skipSpace cs else c :: cs

/-- Reads the longest run of octal digits at the head of the input, accumulating the
magnitude in `acc` (most significant digit first). -/
def octRun : List Char → Nat → Nat
  | [], acc => acc
  | c :: cs, acc =>
    match octDigit c with
    | some d => octRun cs (acc * 8 + d)
    | none => acc

/-- Clamps a signed magnitude to the range of `long`; the second component tells whether
the value was out of range. -/
def clampLong (neg : Bool) (mag : Nat) : Int × Bool :=
  if neg then
    if (2 : Int) ^ 63 < (mag : Int) then (LONG_MIN, true) else (-(mag : Int), false)
  else
    if LONG_MAX < (mag : Int) then (LONG_MAX, true) else ((mag : Int), false)

/-- The conversion that `strtol` performs in base 8: skips white space, reads an optional
sign, then the longest run of octal digits (none gives 0), and clamps to `long`. -/
def strtolCore (s : String) : Int × Bool :=
  let body := skipSpace s.toList
  let signed : Bool × List Char :=
    match body with
    | '-' :: cs => (true, cs)
    | '+' :: cs => (false, cs)
    | cs => (false, cs)
  clampLong signed.1 (octRun signed.2 0)

/-- The value that `strtol(s, endptr, 8)` returns. -/
def strtolValue (s : String) : Int := (strtolCore s).1

/-- The call `strtol(s, endptr, 8)`: returns the converted value and stores `ERANGE` in
`errno` when the value is out of the range of `long`.  The result pairs the value with the
new `errno`. -/
def strtol (s : String) (errno : Nat) : Int × Nat :=
  (strtolValue s, if (strtolCore s).2 then ERANGE else errno)


/-! ## The environment of one call -/

/-- The signature of the real `chmod`: from the path, the mode and the value of `errno`
at the call to the returned value and the value of `errno` after the call. -/
abbrev RealChmod := String → Nat → Nat → Int × Nat

/-- The library calls of `libchmod.c` other than `strtol` (which leaves `errno` alone
unless the value is out of range), with their arguments. -/
inductive LibCall where
  | getenv (name : String)
  | dlopen (file : String)
  | dlsym (handle : Nat) (symbol : String)
  | realpath (path : String)
  | regcomp (pattern : String)
  | regexec (pattern string : String)
  | regfree (pattern : String)
  | stat (path : String)
  deriving DecidableEq, Repr

/-- The collaborators of one call: the process environment, the dynamic loader, the
file system, the regular-expression engine, and the state of the process that the source
leaves to chance.  A failing `realpath` or `stat` yields the `errno` code it stores. -/
structure World where
  /-- The function `getenv`: `none` is the null pointer. -/
  getenv : String → Option String
  /-- The function `dlopen(file, RTLD_LAZY)`: `none` is the null handle. -/
  dlopen : String → Option Nat
  /-- The function `dlsym(handle, symbol)`: `none` is the null pointer. -/
  dlsym : Nat → String → Option RealChmod
  /-- The function `realpath`: the canonical path, or the error code stored in `errno`. -/
  realpath : String → Except Nat String
  /-- The return value of `regcomp(&re, pattern, REG_EXTENDED|REG_NOSUB)`. -/
  regcomp : String → Int
  /-- The return value of `regexec` for the compiled `pattern` on `string`. -/
  regexec : String → String → Int
  /-- The function `stat`: the `st_mode` field, or the error code stored in `errno`. -/
  stat : String → Except Nat Nat
  /-- The value of `errno` when a library call returns, from its value at the call: a
  library function may change `errno` although it succeeds. -/
  errnoAfter : LibCall → Nat → Nat
  /-- The value found in the never-assigned local `char **endptr` (0 is the null
  pointer). -/
  endptr : Nat
  /-- Whether a store of a pointer at the given address succeeds; otherwise it raises
  `SIGSEGV`. -/
  writable : Nat → Bool

/-- What one call of the interposed `chmod` leaves behind when it returns. -/
structure Outcome where
  /-- The value returned to the caller. -/
  ret : Int
  /-- The value of `errno` when the call returns. -/
  errno : Nat
  /-- The invocations of the real `chmod`, in order, with their arguments. -/
  calls : List (String × Nat)
  /-- The handles passed to `dlclose`. -/
  closed : List Nat
  deriving DecidableEq, Repr

/-- How one call of the interposed `chmod` ends. -/
inductive Run where
  /-- The call returns to its caller. -/
  | returned (o : Outcome)
  /-- The store of `strtol` through `endptr` hits an unwritable address: the process is
  killed by `SIGSEGV` inside `strtol`, before the real `chmod` is invoked. -/
  | killed
  /-- The store of `strtol` through `endptr` overwrites memory at an address the function
  never obtained; the execution is not followed further. -/
  | corrupted
  deriving DecidableEq, Repr

/-- What the store `*endptr = ...` inside `strtol` does. -/
inductive Store where
  /-- The pointer is null: `strtol` stores nothing. -/
  | skipped
  /-- The address is writable: the store overwrites what is there. -/
  | stray
  /-- The address is not writable. -/
  | fault
  deriving DecidableEq, Repr

/-- The store that `strtol(s, endptr, 8)` performs with the `endptr` of `chmod`. -/
def endptrStore (w : World) : Store :=
  if w.endptr = 0 then .skipped
  else if w.writable w.endptr then .stray
  else .fault

/-! ## The two functions of `libchmod.c` -/

/-- The function `match(string, pattern)` of the source: 0 when the pattern does not
compile, otherwise `status == 0` for the status of `regexec`. -/
def match_ (w : World) (string pattern : String) : Int :=
  if w.regcomp pattern ≠ 0 then 0
  else
    let status := w.regexec pattern string
    if status = 0 then 1 else 0

/-- The value of `errno` when `match(string, pattern)` returns: after `regcomp` alone
when the pattern does not compile, after `regcomp`, `regexec` and `regfree` otherwise. -/
def matchErrno (w : World) (string pattern : String) (errno : Nat) : Nat :=
  let errno := w.errnoAfter (.regcomp pattern) errno
  if w.regcomp pattern ≠ 0 then errno
  else
    let errno := w.errnoAfter (.regexec pattern string) errno
    w.errnoAfter (.regfree pattern) errno

/-- The statement `return orig_chmod(path, mode);` with `errno` as it stands. -/
def callOrig (orig_chmod : RealChmod) (path : String) (mode : Nat) (errno : Nat) : Outcome :=
  let r := orig_chmod path mode errno
  { ret := r.1, errno := r.2, calls := [(path, mode)], closed := [] }

/-- A return of `CHMOD_ERR` with the given `errno`, the real `chmod` not invoked. -/
def fail (errno : Nat) : Outcome :=
  { ret := CHMOD_ERR, errno := errno, calls := [], closed := [] }

/-- The two tests of lines 131-139 (directories) and 156-164 (regular files), which are
the same text: `some EPERM` when `(mode_l | allowed) != allowed` or
`(mode_l | required) != mode_l`, `none` when the code falls through to the real `chmod`. -/
def checkPerms (mode_l allowed required : Int) : Option Nat :=
  if Int.lor mode_l allowed ≠ allowed then some EPERM
  else if Int.lor mode_l required ≠ mode_l then some EPERM
  else none

/-- The function `chmod(path, mode)` of the source, started with the given `errno`. -/
def chmod (w : World) (path : String) (mode : Nat) (errno : Nat) : Run :=
  let mode_l : Int := (mode : Int)
  let errno := w.errnoAfter (.getenv "LIBCHMOD_PATH_LIB_ORIG") errno
  match w.getenv "LIBCHMOD_PATH_LIB_ORIG" with
  | none => .returned (fail ENOMEM)
  | some env_path_lib_orig =>
  let errno := w.errnoAfter (.dlopen env_path_lib_orig) errno
  match w.dlopen env_path_lib_orig with
  | none => .returned (fail ENOMEM)
  | some handle =>
  let errno := w.errnoAfter (.dlsym handle "chmod") errno
  match w.dlsym handle "chmod" with
  | none => .returned { fail ENOMEM with closed := [handle] }
  | some orig_chmod =>
  let errno := w.errnoAfter (.getenv "LIBCHMOD_PATH_REGEX") errno
  match w.getenv "LIBCHMOD_PATH_REGEX" with
  | none => .returned (fail ENOMEM)
  | some env_path_regex =>
  match w.realpath path with
  | .error e => .returned (fail e)
  | .ok resolved_path =>
  let errno := w.errnoAfter (.realpath path) errno
  let errno := matchErrno w resolved_path env_path_regex errno
  if match_ w resolved_path env_path_regex = 0 then
    .returned (callOrig orig_chmod path mode errno)
  else
  match w.stat resolved_path with
  | .error e => .returned (fail e)
  | .ok st_mode =>
  let errno := w.errnoAfter (.stat resolved_path) errno
  if S_ISDIR st_mode then
    let errno := w.errnoAfter (.getenv "LIBCHMOD_MODE_DIR_ALLOWED") errno
    match w.getenv "LIBCHMOD_MODE_DIR_ALLOWED" with
    | none => .returned (fail ENOMEM)
    | some env_mode_dir_allowed =>
    let errno := w.errnoAfter (.getenv "LIBCHMOD_MODE_DIR_REQUIRED") errno
    match w.getenv "LIBCHMOD_MODE_DIR_REQUIRED" with
    | none => .returned (fail ENOMEM)
    | some env_mode_dir_required =>
    match endptrStore w with
    | .fault => .killed
    | .stray => .corrupted
    | .skipped =>
    let a := strtol env_mode_dir_allowed errno
    let r := strtol env_mode_dir_required a.2
    match checkPerms mode_l a.1 r.1 with
    | some e => .returned (fail e)
    | none => .returned (callOrig orig_chmod path mode r.2)
  else if S_ISREG st_mode then
    let errno := w.errnoAfter (.getenv "LIBCHMOD_MODE_FILE_ALLOWED") errno
    match w.getenv "LIBCHMOD_MODE_FILE_ALLOWED" with
    | none => .returned (fail ENOMEM)
    | some env_mode_file_allowed =>
    let errno := w.errnoAfter (.getenv "LIBCHMOD_MODE_FILE_REQUIRED") errno
    match w.getenv "LIBCHMOD_MODE_FILE_REQUIRED" with
    | none => .returned (fail ENOMEM)
    | some env_mode_file_required =>
    match endptrStore w with
    | .fault => .killed
    | .stray => .corrupted
    | .skipped =>
    let a := strtol env_mode_file_allowed errno
    let r := strtol env_mode_file_required a.2
    match checkPerms mode_l a.1 r.1 with
    | some e => .returned (fail e)
    | none => .returned (callOrig orig_chmod path mode r.2)
  else
    .returned (callOrig orig_chmod path mode errno)

/-! ## Concrete worlds, for evaluation -/

/-- The sample environment of the header of `libchmod.c`. -/
def sampleEnv : String → Option String := fun k =>
  if k = "LIBCHMOD_PATH_LIB_ORIG" then some "/lib/libc.so.6"
  else if k = "LIBCHMOD_PATH_REGEX" then some "^/var/"
  else if k = "LIBCHMOD_MODE_DIR_ALLOWED" then some "2775"
  else if k = "LIBCHMOD_MODE_DIR_REQUIRED" then some "775"
  else if k = "LIBCHMOD_MODE_FILE_ALLOWED" then some "775"
  else if k = "LIBCHMOD_MODE_FILE_REQUIRED" then some "664"
  else none

/-- A real `chmod` that succeeds and leaves `errno` alone. -/
def okChmod : RealChmod := fun _ _ e => (0, e)

/-- A small file system: the directory `/var/data`, the regular file `/var/data/f`, the
FIFO `/var/run/p`, the regular file `/etc/passwd`; the pattern `^/var/` compiles and
matches the three paths under `/var/`.  A successful `realpath` leaves `EINVAL` (22) in
`errno`, the other library calls leave `errno` alone, and the slot of `endptr` happens to
hold the null pointer. -/
def sampleWorld : World where
  getenv := sampleEnv
  dlopen := fun f => if f = "/lib/libc.so.6" then some 1 else none
  dlsym := fun h s => if h = 1 ∧ s = "chmod" then some okChmod else none
  realpath := fun p =>
    if p = "/var/data" ∨ p = "/var/data/f" ∨ p = "/var/run/p" ∨ p = "/etc/passwd" then .ok p
    else .error 2
  regcomp := fun p => if p = "^/var/" then 0 else 1
  regexec := fun _ s =>
    if s = "/var/data" ∨ s = "/var/data/f" ∨ s = "/var/run/p" then 0 else 1
  stat := fun p =>
    if p = "/var/data" then .ok 0o040755
    else if p = "/var/data/f" then .ok 0o100644
    else if p = "/var/run/p" then .ok 0o010644
    else if p = "/etc/passwd" then .ok 0o100644
    else .error 2
  errnoAfter := fun c e =>
    match c with
    | .realpath _ => 22
    | _ => e
  endptr := 0
  writable := fun _ => false

/-- The given world with a non-null value in the slot of `endptr` that is not the address
of writable memory. -/
def strayEndptr (w : World) : World :=
  { w with endptr := 1, writable := fun _ => false }

/-! ## Vocabulary of the specification -/

/-- The two policed target types. -/
inductive Kind where
  | directory
  | regular
  deriving DecidableEq, Repr

/-- The classification test the source applies for a policed type. -/
def Kind.test : Kind → Nat → Bool
  | .directory, st_mode => S_ISDIR st_mode
  | .regular, st_mode => S_ISREG st_mode

/-- The environment key of the allowed mask of a policed type. -/
def Kind.allowedKey : Kind → String
  | .directory => "LIBCHMOD_MODE_DIR_ALLOWED"
  | .regular => "LIBCHMOD_MODE_FILE_ALLOWED"

/-- The environment key of the required mask of a policed type. -/
def Kind.requiredKey : Kind → String
  | .directory => "LIBCHMOD_MODE_DIR_REQUIRED"
  | .regular => "LIBCHMOD_MODE_FILE_REQUIRED"

/-- The real implementation resolves to `orig`: the locator is set, the library loads and
the symbol `chmod` is found in it. -/
def Resolves (w : World) (orig : RealChmod) : Prop :=
  ∃ lib handle, w.getenv "LIBCHMOD_PATH_LIB_ORIG" = some lib ∧
    w.dlopen lib = some handle ∧ w.dlsym handle "chmod" = some orig

/-- The call reaches the type classification with `st_mode`: the real implementation
resolves to `orig`, the pattern is configured, `realpath` succeeds, the canonical path
matches the pattern and `stat` of the canonical path succeeds. -/
def Matched (w : World) (path : String) (orig : RealChmod) (st_mode : Nat) : Prop :=
  Resolves w orig ∧ ∃ pattern resolved, w.getenv "LIBCHMOD_PATH_REGEX" = some pattern ∧
    w.realpath path = .ok resolved ∧ match_ w resolved pattern ≠ 0 ∧
    w.stat resolved = .ok st_mode

/-! ## Evaluation on the sample world -/

/-- The sample world without the key `LIBCHMOD_MODE_FILE_REQUIRED`. -/
def noFileRequired : World :=
  { sampleWorld with
    getenv := fun k => if k = "LIBCHMOD_MODE_FILE_REQUIRED" then none else sampleEnv k }

/-- The sample world with the four mask keys set as given (`none` is an unset key). -/
def withMasks (dirAllowed dirRequired fileAllowed fileRequired : Option String) : World :=
  { sampleWorld with
    getenv := fun k =>
      if k = "LIBCHMOD_MODE_DIR_ALLOWED" then dirAllowed
      else if k = "LIBCHMOD_MODE_DIR_REQUIRED" then dirRequired
      else if k = "LIBCHMOD_MODE_FILE_ALLOWED" then fileAllowed
      else if k = "LIBCHMOD_MODE_FILE_REQUIRED" then fileRequired
      else sampleEnv k }

/-- The sample world with another value of `LIBCHMOD_PATH_REGEX`; the engine of the sample
world compiles the pattern `^/var/` only. -/
def withPattern (pattern : String) : World :=
  { sampleWorld with
    getenv := fun k => if k = "LIBCHMOD_PATH_REGEX" then some pattern else sampleEnv k }

/-- The sample world in which every `stat` fails with `EACCES` (13). -/
def statDenied : World :=
  { sampleWorld with stat := fun _ => .error 13 }

/-! ## Lemmas on bits -/

theorem int_eq_of_testBit (a b : Int) (h : ∀ i, a.testBit i = b.testBit i) : a = b := by
  have big : ∀ m n : Nat, m.testBit (m + n) = false ∧ n.testBit (m + n) = false := by
    intro m n
    constructor
    · apply Nat.testBit_eq_false_of_lt
      exact lt_of_lt_of_le (Nat.lt_two_pow m) (Nat.pow_le_pow_right (by decide) (by omega))
    · apply Nat.testBit_eq_false_of_lt
      exact lt_of_lt_of_le (Nat.lt_two_pow n) (Nat.pow_le_pow_right (by decide) (by omega))
  cases a with
  | ofNat m =>
    cases b with
    | ofNat n =>
      congr 1
      exact Nat.eq_of_testBit_eq h
    | negSucc n =>
      exfalso
      have := h (m + n)
      simp [Int.testBit, (big m n).1, (big m n).2] at this
  | negSucc m =>
    cases b with
    | ofNat n =>
      exfalso
      have := h (m + n)
      simp [Int.testBit, (big m n).1, (big m n).2] at this
    | negSucc n =>
      congr 1
      apply Nat.eq_of_testBit_eq
      intro i
      have := h i
      simpa [Int.testBit] using this

/-- The upper-bound test on arbitrary integers: `(m | A) == A` says that every bit of `m`
is a bit of `A`. -/
theorem int_lor_eq_right_iff (m A : Int) :
    Int.lor m A = A ↔ ∀ i, m.testBit i = true → A.testBit i = true := by
  constructor
  · intro h i hm
    have := Int.testBit_lor m A i
    rw [h, hm] at this
    simpa using this
  · intro h
    apply int_eq_of_testBit
    intro i
    rw [Int.testBit_lor]
    cases hm : m.testBit i with
    | false => simp
    | true => simp [h i hm]

/-- The lower-bound test on arbitrary integers: `(m | R) == m` says that every bit of `R`
is a bit of `m`. -/
theorem int_lor_eq_left_iff (m R : Int) :
    Int.lor m R = m ↔ ∀ i, R.testBit i = true → m.testBit i = true := by
  constructor
  · intro h i hr
    have := Int.testBit_lor m R i
    rw [h, hr] at this
    simpa using this
  · intro h
    apply int_eq_of_testBit
    intro i
    rw [Int.testBit_lor]
    cases hr : R.testBit i with
    | false => simp
    | true => simp [h i hr]

theorem int_testBit_zero (i : Nat) : (0 : Int).testBit i = false := by
  show Nat.testBit 0 i = false
  simp

/-- The expression `m & ~A` is zero exactly when every bit of `m` is a bit of `A`. -/
theorem int_land_lnot_eq_zero_iff (m A : Int) :
    Int.land m (Int.lnot A) = 0 ↔ ∀ i, m.testBit i = true → A.testBit i = true := by
  constructor
  · intro h i hm
    have := Int.testBit_land m (Int.lnot A) i
    rw [h, int_testBit_zero, hm, Int.testBit_lnot] at this
    simpa using this.symm
  · intro h
    apply int_eq_of_testBit
    intro i
    rw [Int.testBit_land, Int.testBit_lnot, int_testBit_zero]
    cases hm : m.testBit i with
    | false => simp
    | true => simp [h i hm]

/-- The two tests let a mode through exactly when both bitwise equalities hold. -/
theorem checkPerms_eq_none_iff (m A R : Int) :
    checkPerms m A R = none ↔ (Int.lor m A = A ∧ Int.lor m R = m) := by
  unfold checkPerms
  by_cases h1 : Int.lor m A = A
  · by_cases h2 : Int.lor m R = m <;> simp [h1, h2]
  · simp [h1]

/-! ## Lemmas on the control flow of `chmod` -/

theorem not_isdir_of_isreg (st : Nat) (h : S_ISREG st = true) : S_ISDIR st = false := by
  simp only [S_ISREG, S_ISDIR, beq_iff_eq] at *
  rw [h]
  decide

theorem endptrStore_skipped_iff (w : World) : endptrStore w = .skipped ↔ w.endptr = 0 := by
  unfold endptrStore
  by_cases h : w.endptr = 0
  · simp [h]
  · by_cases h2 : w.writable w.endptr = true <;> simp [h, h2]

/-- On a matched target of a policed type with both masks configured, `chmod` is the store
of `strtol` through `endptr` followed, when nothing is stored, by the two tests and the
call of the real `chmod`. -/
theorem chmod_policed (w : World) (path : String) (mode e : Nat) (orig : RealChmod)
    (st : Nat) (k : Kind) (sa sr : String)
    (hM : Matched w path orig st) (hk : k.test st = true)
    (ha : w.getenv k.allowedKey = some sa) (hr : w.getenv k.requiredKey = some sr) :
    ∃ e1, chmod w path mode e =
      match endptrStore w with
      | .fault => .killed
      | .stray => .corrupted
      | .skipped =>
        match checkPerms (mode : Int) (strtolValue sa) (strtolValue sr) with
        | some err => .returned (fail err)
        | none => .returned (callOrig orig path mode e1) := by
  obtain ⟨⟨lib, handle, hlib, hopen, hsym⟩, pat, rp, hpat, hrp, hmatch, hstat⟩ := hM
  cases k with
  | directory =>
    simp only [Kind.test] at hk
    simp only [Kind.allowedKey, Kind.requiredKey] at ha hr
    simp only [chmod, hlib, hopen, hsym, hpat, hrp, hmatch, hstat, hk, ha, hr, strtol,
      if_true, if_false]
    exact ⟨_, rfl⟩
  | regular =>
    simp only [Kind.test] at hk
    simp only [Kind.allowedKey, Kind.requiredKey] at ha hr
    have hd := not_isdir_of_isreg st hk
    simp only [chmod, hlib, hopen, hsym, hpat, hrp, hmatch, hstat, hk, hd, ha, hr, strtol,
      if_true, if_false, Bool.false_eq_true]
    exact ⟨_, rfl⟩

/-- The sample world reaches the classification of the directory `/var/data`. -/
theorem sample_matched_dir : Matched sampleWorld "/var/data" okChmod 0o040755 :=
  ⟨⟨"/lib/libc.so.6", 1, by decide, by decide, rfl⟩,
    "^/var/", "/var/data", by decide, rfl, by decide, rfl⟩

/-- The sample world reaches the classification of the regular file `/var/data/f`. -/
theorem sample_matched_file : Matched sampleWorld "/var/data/f" okChmod 0o100644 :=
  ⟨⟨"/lib/libc.so.6", 1, by decide, by decide, rfl⟩,
    "^/var/", "/var/data/f", by decide, rfl, by decide, rfl⟩

/-- The sample world reaches the classification of the FIFO `/var/run/p`. -/
theorem sample_matched_fifo : Matched sampleWorld "/var/run/p" okChmod 0o010644 :=
  ⟨⟨"/lib/libc.so.6", 1, by decide, by decide, rfl⟩,
    "^/var/", "/var/run/p", by decide, rfl, by decide, rfl⟩

/-! ## The claims -/

/-- C1, upper-bound invariant, evaluated on scenario 2 of the specification (directory
`/var/data`, allowed `2775`, required `775`, mode `777`): when the slot of `endptr` holds
a non-null address that is not writable, the call is killed inside `strtol` and returns
nothing; when the slot happens to hold the null pointer, the call returns -1 with
`EPERM` without invoking the real `chmod`. -/
theorem upper_bound_killed_in_strtol :
    chmod (strayEndptr sampleWorld) "/var/data" 0o777 0 = Run.killed ∧
      chmod sampleWorld "/var/data" 0o777 0 = Run.returned (fail EPERM) := by
  decide

/-- C2, lower-bound invariant, evaluated on scenario 3 of the specification (regular file
`/var/data/f`, allowed `775`, required `664`, mode `644`): when the slot of `endptr`
holds a non-null address that is not writable, the call is killed inside `strtol` and
returns nothing; when the slot happens to hold the null pointer, the call returns -1 with
`EPERM` without invoking the real `chmod`. -/
theorem lower_bound_killed_in_strtol :
    chmod (strayEndptr sampleWorld) "/var/data/f" 0o644 0 = Run.killed ∧
      chmod sampleWorld "/var/data/f" 0o644 0 = Run.returned (fail EPERM) := by
  decide

/-- C3, compliance invariant, evaluated on scenario 1 of the specification (directory
`/var/data`, allowed `2775`, required `775`, mode `775`): when the slot of `endptr` holds
a non-null address that is not writable, the call is killed inside `strtol` and the real
`chmod` is never invoked; when the slot happens to hold the null pointer, the real `chmod`
is invoked once with the caller's path and mode and its result is returned. -/
theorem compliant_killed_in_strtol :
    chmod (strayEndptr sampleWorld) "/var/data" 0o775 7 = Run.killed ∧
      chmod sampleWorld "/var/data" 0o775 7 =
        Run.returned { ret := 0, errno := 22, calls := [("/var/data", 0o775)], closed := [] } := by
  decide

/-- C4, counterexample: on the unmatched path `/etc/passwd`, entered with `errno = 5`, a
real `chmod` that succeeds and leaves `errno` alone gives 0 and `errno = 5` when called
directly, but the interposed call returns with `errno = 22`, the value the successful
`realpath` left. -/
theorem pass_through_errno_counterexample :
    okChmod "/etc/passwd" 0o4777 5 = (0, 5) ∧
      chmod sampleWorld "/etc/passwd" 0o4777 5 =
        Run.returned
          { ret := 0, errno := 22, calls := [("/etc/passwd", 0o4777)], closed := [] } := by
  decide

/-- C4, amended: when the real implementation resolves, the pattern is configured,
`realpath` succeeds and the canonical path does not match the pattern, the call invokes
the real `chmod` once, on the caller's path and mode, and returns its value and its
`errno`; the result is that of a direct call made from the `errno` that the library calls
of lines 76-106 have left, which is the caller's `errno` when those calls leave `errno`
alone.  `stat` and the four mask keys take no part. -/
theorem pass_through (w : World) (path : String) (mode e : Nat) (orig : RealChmod)
    (lib : String) (handle : Nat) (pattern resolved : String)
    (hlib : w.getenv "LIBCHMOD_PATH_LIB_ORIG" = some lib)
    (hopen : w.dlopen lib = some handle) (hsym : w.dlsym handle "chmod" = some orig)
    (hp : w.getenv "LIBCHMOD_PATH_REGEX" = some pattern)
    (hrp : w.realpath path = .ok resolved) (hm : match_ w resolved pattern = 0) :
    (∃ o, chmod w path mode e = .returned o ∧ o.calls = [(path, mode)] ∧
        (o.ret, o.errno) = orig path mode
          (matchErrno w resolved pattern
            (w.errnoAfter (.realpath path)
              (w.errnoAfter (.getenv "LIBCHMOD_PATH_REGEX")
                (w.errnoAfter (.dlsym handle "chmod")
                  (w.errnoAfter (.dlopen lib)
                    (w.errnoAfter (.getenv "LIBCHMOD_PATH_LIB_ORIG") e))))))) ∧
      ((∀ c x, w.errnoAfter c x = x) →
        ∃ o, chmod w path mode e = .returned o ∧ o.calls = [(path, mode)] ∧
          (o.ret, o.errno) = orig path mode e) := by
  have key : chmod w path mode e = .returned (callOrig orig path mode
      (matchErrno w resolved pattern
        (w.errnoAfter (.realpath path)
          (w.errnoAfter (.getenv "LIBCHMOD_PATH_REGEX")
            (w.errnoAfter (.dlsym handle "chmod")
              (w.errnoAfter (.dlopen lib)
                (w.errnoAfter (.getenv "LIBCHMOD_PATH_LIB_ORIG") e))))))) := by
    simp only [chmod, hlib, hopen, hsym, hp, hrp, hm, if_true]
  refine ⟨⟨_, key, rfl, rfl⟩, ?_⟩
  intro hid
  refine ⟨_, key, rfl, ?_⟩
  have hme : ∀ x, matchErrno w resolved pattern x = x := by
    intro x
    unfold matchErrno
    simp only [hid]
    split <;> rfl
  simp only [callOrig, hme, hid]

/-- Scenario 5 of the specification: pattern `^/var/`, path `/etc/passwd`, entered with
`errno = 5`: the real `chmod` is called from `errno = 22`. -/
theorem pass_through_witness :
    (∃ o, chmod sampleWorld "/etc/passwd" 0o4777 5 = .returned o ∧
        o.calls = [("/etc/passwd", 0o4777)] ∧
        (o.ret, o.errno) = okChmod "/etc/passwd" 0o4777
          (matchErrno sampleWorld "/etc/passwd" "^/var/"
            (sampleWorld.errnoAfter (.realpath "/etc/passwd")
              (sampleWorld.errnoAfter (.getenv "LIBCHMOD_PATH_REGEX")
                (sampleWorld.errnoAfter (.dlsym 1 "chmod")
                  (sampleWorld.errnoAfter (.dlopen "/lib/libc.so.6")
                    (sampleWorld.errnoAfter (.getenv "LIBCHMOD_PATH_LIB_ORIG") 5))))))) ∧
      matchErrno sampleWorld "/etc/passwd" "^/var/"
          (sampleWorld.errnoAfter (.realpath "/etc/passwd")
            (sampleWorld.errnoAfter (.getenv "LIBCHMOD_PATH_REGEX")
              (sampleWorld.errnoAfter (.dlsym 1 "chmod")
                (sampleWorld.errnoAfter (.dlopen "/lib/libc.so.6")
                  (sampleWorld.errnoAfter (.getenv "LIBCHMOD_PATH_LIB_ORIG") 5))))) = 22 :=
  ⟨(pass_through sampleWorld "/etc/passwd" 0o4777 5 okChmod "/lib/libc.so.6" 1 "^/var/"
      "/etc/passwd" (by decide) (by decide) rfl (by decide) rfl (by decide)).1,
    by decide⟩

/-- C5, counterexample: with the key `LIBCHMOD_MODE_FILE_REQUIRED` absent, a call on the
unmatched path `/etc/passwd` and a call on the matched directory `/var/data` (the slot of
`endptr` holding the null pointer) both invoke the real `chmod` and return 0, not -1 with
`ENOMEM`. -/
theorem missing_key_counterexample :
    noFileRequired.getenv "LIBCHMOD_MODE_FILE_REQUIRED" = none ∧
      chmod noFileRequired "/etc/passwd" 0o777 0 =
        Run.returned
          { ret := 0, errno := 22, calls := [("/etc/passwd", 0o777)], closed := [] } ∧
      chmod noFileRequired "/var/data" 0o775 0 =
        Run.returned
          { ret := 0, errno := 22, calls := [("/var/data", 0o775)], closed := [] } := by
  decide

/-- C5, amended: a call returns -1 with `errno = ENOMEM` and does not invoke the real
`chmod` when the locator key is absent, when the pattern key is absent, or when the call
reaches the evaluation of a directory (resp. regular file) and the allowed or the required
mask key of that type is absent. -/
theorem missing_needed_key_fails (w : World) (path : String) (mode e : Nat)
    (h : w.getenv "LIBCHMOD_PATH_LIB_ORIG" = none ∨
      w.getenv "LIBCHMOD_PATH_REGEX" = none ∨
      ∃ (orig : RealChmod) (st : Nat) (k : Kind), Matched w path orig st ∧ k.test st = true ∧
        (w.getenv k.allowedKey = none ∨ w.getenv k.requiredKey = none)) :
    ∃ o, chmod w path mode e = .returned o ∧ o.ret = -1 ∧ o.errno = ENOMEM ∧
      o.calls = [] := by
  rcases h with h | h | ⟨orig, st, k, hM, hk, h⟩
  · simp only [chmod, h]
    exact ⟨_, rfl, rfl, rfl, rfl⟩
  · unfold chmod
    dsimp only
    split
    · exact ⟨_, rfl, rfl, rfl, rfl⟩
    · split
      · exact ⟨_, rfl, rfl, rfl, rfl⟩
      · split
        · exact ⟨_, rfl, rfl, rfl, rfl⟩
        · simp only [h]
          exact ⟨_, rfl, rfl, rfl, rfl⟩
  · obtain ⟨⟨lib, handle, hlib, hopen, hsym⟩, pat, rp, hpat, hrp, hmatch, hstat⟩ := hM
    cases k with
    | directory =>
      simp only [Kind.test] at hk
      simp only [Kind.allowedKey, Kind.requiredKey] at h
      rcases h with h | h
      · simp only [chmod, hlib, hopen, hsym, hpat, hrp, hmatch, hstat, hk, h, if_true,
          if_false]
        exact ⟨_, rfl, rfl, rfl, rfl⟩
      · simp only [chmod, hlib, hopen, hsym, hpat, hrp, hmatch, hstat, hk, h, if_true,
          if_false]
        split <;> exact ⟨_, rfl, rfl, rfl, rfl⟩
    | regular =>
      simp only [Kind.test] at hk
      simp only [Kind.allowedKey, Kind.requiredKey] at h
      have hd := not_isdir_of_isreg st hk
      rcases h with h | h
      · simp only [chmod, hlib, hopen, hsym, hpat, hrp, hmatch, hstat, hk, hd, h, if_true,
          if_false, Bool.false_eq_true]
        exact ⟨_, rfl, rfl, rfl, rfl⟩
      · simp only [chmod, hlib, hopen, hsym, hpat, hrp, hmatch, hstat, hk, hd, h, if_true,
          if_false, Bool.false_eq_true]
        split <;> exact ⟨_, rfl, rfl, rfl, rfl⟩

/-- The regular file `/var/data/f` with the key `LIBCHMOD_MODE_FILE_REQUIRED` absent. -/
theorem missing_needed_key_fails_witness :
    noFileRequired.getenv Kind.regular.requiredKey = none ∧
      ∃ o, chmod noFileRequired "/var/data/f" 0o664 0 = .returned o ∧ o.ret = -1 ∧
        o.errno = ENOMEM ∧ o.calls = [] :=
  ⟨by decide,
    missing_needed_key_fails noFileRequired "/var/data/f" 0o664 0
      (Or.inr (Or.inr ⟨okChmod, 0o100644, Kind.regular,
        ⟨⟨"/lib/libc.so.6", 1, by decide, by decide, rfl⟩,
          "^/var/", "/var/data/f", by decide, rfl, by decide, rfl⟩,
        by decide, Or.inr (by decide)⟩))⟩

/-- C6, infrastructure failures ahead of canonicalisation: when the locator is unset, or
loading the library fails, or the symbol `chmod` is not found in it, or the real
implementation resolves and the pattern is unset, the call returns -1 with
`errno = ENOMEM` and the real `chmod` is not invoked, whatever the path (`realpath` is not
constrained), the mode and the masks are. -/
theorem infrastructure_failure_terminal (w : World) (path : String) (mode e : Nat)
    (h : w.getenv "LIBCHMOD_PATH_LIB_ORIG" = none ∨
      (∃ lib, w.getenv "LIBCHMOD_PATH_LIB_ORIG" = some lib ∧ w.dlopen lib = none) ∨
      (∃ lib handle, w.getenv "LIBCHMOD_PATH_LIB_ORIG" = some lib ∧
        w.dlopen lib = some handle ∧ w.dlsym handle "chmod" = none) ∨
      ((∃ orig, Resolves w orig) ∧ w.getenv "LIBCHMOD_PATH_REGEX" = none)) :
    ∃ o, chmod w path mode e = .returned o ∧ o.ret = -1 ∧ o.errno = ENOMEM ∧
      o.calls = [] := by
  rcases h with h | ⟨lib, hlib, h⟩ | ⟨lib, handle, hlib, hopen, h⟩ |
    ⟨⟨orig, lib, handle, hlib, hopen, hsym⟩, h⟩
  · simp only [chmod, h]
    exact ⟨_, rfl, rfl, rfl, rfl⟩
  · simp only [chmod, hlib, h]
    exact ⟨_, rfl, rfl, rfl, rfl⟩
  · simp only [chmod, hlib, hopen, h]
    exact ⟨_, rfl, rfl, rfl, rfl⟩
  · simp only [chmod, hlib, hopen, hsym, h]
    exact ⟨_, rfl, rfl, rfl, rfl⟩

/-- The sample world with the locator unset, on a path that cannot be canonicalised. -/
theorem infrastructure_failure_terminal_witness :
    ∃ o, chmod { sampleWorld with getenv := fun _ => none } "/nonexistent" 0o644 0
        = .returned o ∧ o.ret = -1 ∧ o.errno = ENOMEM ∧ o.calls = [] :=
  infrastructure_failure_terminal { sampleWorld with getenv := fun _ => none }
    "/nonexistent" 0o644 0 (Or.inl rfl)

/-- C7, a path that cannot be canonicalised is never passed through: when the real
implementation resolves, the pattern is configured and `realpath` fails with error `err`,
the call returns -1, `errno` is `err` and the real `chmod` is not invoked. -/
theorem realpath_failure_verbatim (w : World) (path : String) (mode e : Nat)
    (orig : RealChmod) (pattern : String) (err : Nat)
    (hR : Resolves w orig) (hp : w.getenv "LIBCHMOD_PATH_REGEX" = some pattern)
    (hrp : w.realpath path = .error err) :
    ∃ o, chmod w path mode e = .returned o ∧ o.ret = -1 ∧ o.errno = err ∧
      o.calls = [] := by
  obtain ⟨lib, handle, hlib, hopen, hsym⟩ := hR
  simp only [chmod, hlib, hopen, hsym, hp, hrp]
  exact ⟨_, rfl, rfl, rfl, rfl⟩

/-- The path `/nonexistent` in the sample world: `realpath` fails with `ENOENT` (2). -/
theorem realpath_failure_verbatim_witness :
    ∃ o, chmod sampleWorld "/nonexistent" 0o644 0 = .returned o ∧ o.ret = -1 ∧
      o.errno = 2 ∧ o.calls = [] :=
  realpath_failure_verbatim sampleWorld "/nonexistent" 0o644 0 okChmod "^/var/" 2
    ⟨"/lib/libc.so.6", 1, by decide, by decide, rfl⟩ (by decide) rfl

/-- C8, a missing mask is an infrastructure error: on a matched directory (resp. regular
file), when the allowed or the required mask key of that type is unset, the call returns
-1 with `errno = ENOMEM` (which is not `EPERM`) and does not invoke the real `chmod`, for
every mode. -/
theorem missing_mask_is_enomem (w : World) (path : String) (mode e : Nat) (orig : RealChmod)
    (st : Nat) (k : Kind)
    (hM : Matched w path orig st) (hk : k.test st = true)
    (h : w.getenv k.allowedKey = none ∨ w.getenv k.requiredKey = none) :
    ∃ o, chmod w path mode e = .returned o ∧ o.ret = -1 ∧ o.errno = ENOMEM ∧
      o.errno ≠ EPERM ∧ o.calls = [] := by
  obtain ⟨⟨lib, handle, hlib, hopen, hsym⟩, pat, rp, hpat, hrp, hmatch, hstat⟩ := hM
  have key : chmod w path mode e = .returned (fail ENOMEM) := by
    cases k with
    | directory =>
      simp only [Kind.test] at hk
      simp only [Kind.allowedKey, Kind.requiredKey] at h
      rcases h with h | h
      · simp only [chmod, hlib, hopen, hsym, hpat, hrp, hmatch, hstat, hk, h, if_true,
          if_false]
      · simp only [chmod, hlib, hopen, hsym, hpat, hrp, hmatch, hstat, hk, h, if_true,
          if_false]
        split <;> rfl
    | regular =>
      simp only [Kind.test] at hk
      simp only [Kind.allowedKey, Kind.requiredKey] at h
      have hd := not_isdir_of_isreg st hk
      rcases h with h | h
      · simp only [chmod, hlib, hopen, hsym, hpat, hrp, hmatch, hstat, hk, hd, h, if_true,
          if_false, Bool.false_eq_true]
      · simp only [chmod, hlib, hopen, hsym, hpat, hrp, hmatch, hstat, hk, hd, h, if_true,
          if_false, Bool.false_eq_true]
        split <;> rfl
  exact ⟨_, key, rfl, rfl, by decide, rfl⟩

/-- The sample world without `LIBCHMOD_MODE_DIR_REQUIRED`, the directory `/var/data` and
the mode `777`, which violates the configured allowed mask `2775`. -/
theorem missing_mask_is_enomem_witness :
    ∃ o, chmod (withMasks (some "2775") none (some "775") (some "664")) "/var/data" 0o777 0
        = .returned o ∧ o.ret = -1 ∧ o.errno = ENOMEM ∧ o.errno ≠ EPERM ∧ o.calls = [] :=
  missing_mask_is_enomem (withMasks (some "2775") none (some "775") (some "664"))
    "/var/data" 0o777 0 okChmod 0o040755 Kind.directory
    ⟨⟨"/lib/libc.so.6", 1, by decide, by decide, rfl⟩,
      "^/var/", "/var/data", by decide, rfl, by decide, rfl⟩
    (by decide) (Or.inr (by decide))

/-- When the library calls leave `errno` alone, so does `match`. -/
theorem matchErrno_of_preserved (w : World) (h : ∀ c x, w.errnoAfter c x = x)
    (string pattern : String) (x : Nat) : matchErrno w string pattern x = x := by
  unfold matchErrno
  simp only [h]
  split <;> rfl

/-- C9, type-agnostic targets: when the call reaches the classification and the target is
neither a directory nor a regular file, the call invokes the real `chmod` once, on the
caller's path and mode, and returns the value and the `errno` of that invocation
unchanged, whatever the four mask keys are; the invocation starts from the `errno` the
library calls have left, which is the caller's when they leave `errno` alone. -/
theorem other_type_delegates (w : World) (path : String) (mode e : Nat) (orig : RealChmod)
    (st : Nat)
    (hM : Matched w path orig st) (hd : S_ISDIR st = false) (hf : S_ISREG st = false) :
    ∃ o e1, chmod w path mode e = .returned o ∧ o.calls = [(path, mode)] ∧
      o.ret = (orig path mode e1).1 ∧ o.errno = (orig path mode e1).2 ∧
      ((∀ c x, w.errnoAfter c x = x) → e1 = e) := by
  obtain ⟨⟨lib, handle, hlib, hopen, hsym⟩, pat, rp, hpat, hrp, hmatch, hstat⟩ := hM
  simp only [chmod, hlib, hopen, hsym, hpat, hrp, hmatch, hstat, hd, hf, if_false,
    Bool.false_eq_true]
  refine ⟨_, _, rfl, rfl, rfl, rfl, ?_⟩
  intro hid
  simp only [matchErrno_of_preserved w hid, hid]

/-- The FIFO `/var/run/p` of the sample world, with no mask configured at all, a stray
value in the slot of `endptr` and a mode with every permission bit set. -/
theorem other_type_delegates_witness :
    ∃ o e1, chmod (strayEndptr (withMasks none none none none)) "/var/run/p" 0o7777 3
        = .returned o ∧ o.calls = [("/var/run/p", 0o7777)] ∧
      o.ret = (okChmod "/var/run/p" 0o7777 e1).1 ∧
      o.errno = (okChmod "/var/run/p" 0o7777 e1).2 ∧
      ((∀ c x, (strayEndptr (withMasks none none none none)).errnoAfter c x = x) →
        e1 = 3) :=
  other_type_delegates (strayEndptr (withMasks none none none none)) "/var/run/p" 0o7777 3
    okChmod 0o010644
    ⟨⟨"/lib/libc.so.6", 1, by decide, by decide, rfl⟩,
      "^/var/", "/var/run/p", by decide, rfl, by decide, rfl⟩
    (by decide) (by decide)

/-- C10, no partial or altered application: every execution is of one of three kinds.
Either the call returns -1 without invoking the real `chmod`; or the real implementation
resolved to `orig`, it is invoked exactly once, on the caller's own path and mode, and the
value returned and the `errno` left are the ones that invocation produced; or the slot of
`endptr` is not null and the call does not return -1: it ends in the store of `strtol`
through `endptr`, the real `chmod` not invoked.  The third kind occurs: on the regular
file `/var/data/f` with the sample masks and mode `664` the call is killed. -/
theorem executions_classified :
    (∀ (w : World) (path : String) (mode e : Nat),
      (∃ o, chmod w path mode e = .returned o ∧ o.calls = [] ∧ o.ret = -1) ∨
      (∃ (orig : RealChmod) (o : Outcome) (e1 : Nat), Resolves w orig ∧
        chmod w path mode e = .returned o ∧ o.calls = [(path, mode)] ∧
        o.ret = (orig path mode e1).1 ∧ o.errno = (orig path mode e1).2) ∨
      (w.endptr ≠ 0 ∧ (chmod w path mode e = .killed ∨ chmod w path mode e = .corrupted))) ∧
    chmod (strayEndptr sampleWorld) "/var/data/f" 0o664 0 = Run.killed := by
  refine ⟨?_, by decide⟩
  intro w path mode e
  have hne : ∀ s, endptrStore w = s → s ≠ .skipped → w.endptr ≠ 0 := by
    intro s hs hs2 h0
    exact hs2 (hs ▸ (endptrStore_skipped_iff w).mpr h0)
  unfold chmod
  dsimp only
  repeat' split
  all_goals first
    | exact Or.inl ⟨_, rfl, rfl, rfl⟩
    | exact Or.inr (Or.inl ⟨_, _, _, ⟨_, _, ‹_›, ‹_›, ‹_›⟩, rfl, rfl, rfl, rfl⟩)
    | exact Or.inr (Or.inr ⟨hne _ ‹_› (by decide), Or.inl rfl⟩)
    | exact Or.inr (Or.inr ⟨hne _ ‹_› (by decide), Or.inr rfl⟩)

/-! ## The claims on mask values -/

/-- C11, evaluation at invalid mask strings: `strtol` reads `rwx`, `89` and the empty string
as 0 and `775x` as octal 775 without reporting anything.  With the required mask `rwx`
or the masks `775x` and the empty string, the mode 775 on the matched directory
`/var/data` is delegated to the real `chmod`; with the allowed mask `89` it is rejected
with `EPERM` (the slot of `endptr` holding the null pointer); with a stray value in that
slot the call is killed inside `strtol`.  In no case is the result -1 with `ENOMEM`. -/
theorem invalid_mask_not_reported :
    strtol "rwx" 0 = (0, 0) ∧ strtol "89" 0 = (0, 0) ∧ strtol "" 0 = (0, 0) ∧
      strtol "775x" 0 = (0o775, 0) ∧
      chmod (withMasks (some "2775") (some "rwx") none none) "/var/data" 0o775 0 =
        Run.returned
          { ret := 0, errno := 22, calls := [("/var/data", 0o775)], closed := [] } ∧
      chmod (withMasks (some "775x") (some "") none none) "/var/data" 0o775 0 =
        Run.returned
          { ret := 0, errno := 22, calls := [("/var/data", 0o775)], closed := [] } ∧
      chmod (withMasks (some "89") (some "775") none none) "/var/data" 0o775 0 =
        Run.returned { ret := -1, errno := EPERM, calls := [], closed := [] } ∧
      chmod (strayEndptr (withMasks (some "2775") (some "rwx") none none)) "/var/data"
        0o775 0 = Run.killed := by
  decide

/-- C12, bit-exactness of the two tests: for all integers `m`, `A`, `R`, `(m | A) == A`
holds exactly when every bit of `m` is a bit of `A`, that is when `m & ~A == 0`, and
`(m | R) == m` holds exactly when every bit of `R` is a bit of `m`, that is when
`R & ~m == 0`; hence the two tests of the source let `m` through exactly when `m` is a
bitwise subset of `A` and a bitwise superset of `R`, and reject it with `EPERM`
otherwise. -/
theorem tests_bit_exact :
    (∀ m A : Int, (Int.lor m A = A ↔ ∀ i, m.testBit i = true → A.testBit i = true) ∧
        (Int.lor m A = A ↔ Int.land m (Int.lnot A) = 0)) ∧
      (∀ m R : Int, (Int.lor m R = m ↔ ∀ i, R.testBit i = true → m.testBit i = true) ∧
        (Int.lor m R = m ↔ Int.land R (Int.lnot m) = 0)) ∧
      (∀ m A R : Int, (checkPerms m A R = none ↔
          ((∀ i, m.testBit i = true → A.testBit i = true) ∧
            (∀ i, R.testBit i = true → m.testBit i = true))) ∧
        (checkPerms m A R = none ∨ checkPerms m A R = some EPERM)) := by
  refine ⟨fun m A => ⟨int_lor_eq_right_iff m A, ?_⟩, fun m R => ⟨int_lor_eq_left_iff m R, ?_⟩,
    fun m A R => ⟨?_, ?_⟩⟩
  · rw [int_lor_eq_right_iff, int_land_lnot_eq_zero_iff]
  · rw [int_lor_eq_left_iff, int_land_lnot_eq_zero_iff]
  · rw [checkPerms_eq_none_iff, int_lor_eq_right_iff, int_lor_eq_left_iff]
  · unfold checkPerms
    split
    · exact Or.inr rfl
    · split
      · exact Or.inr rfl
      · exact Or.inl rfl

/-- C13, contradictory masks, evaluated on the directory `/var/data` with allowed `775` and
required `2775` (bit `2000` is required but not allowed) and the mode 2775: when the slot
of `endptr` holds a non-null address that is not writable, the call is killed inside
`strtol` and returns nothing; when the slot happens to hold the null pointer, the call
returns -1 with `EPERM` without invoking the real `chmod`. -/
theorem contradictory_masks_killed_in_strtol :
    chmod (strayEndptr (withMasks (some "775") (some "2775") none none)) "/var/data"
        0o2775 0 = Run.killed ∧
      chmod (withMasks (some "775") (some "2775") none none) "/var/data" 0o2775 0 =
        Run.returned (fail EPERM) := by
  decide

/-! ## The claims on the pattern, on `stat` and on pairs of configurations -/

/-- C14, a malformed pattern disables the policy: `match` returns 0 for every string when
the pattern does not compile, and returns nonzero exactly when the pattern compiles and
`regexec` reports a match; so, when the real implementation resolves and the path
canonicalises, a call whose configured pattern does not compile invokes the real `chmod`
once, on the caller's path and mode, and returns the value and the `errno` of that
invocation, whatever the file type and the masks are; the invocation starts from the
`errno` the library calls have left, which is the caller's when they leave `errno`
alone. -/
theorem malformed_pattern_passes_through (w : World) (path : String) (mode e : Nat)
    (orig : RealChmod) (pattern resolved : String)
    (hR : Resolves w orig) (hp : w.getenv "LIBCHMOD_PATH_REGEX" = some pattern)
    (hrp : w.realpath path = .ok resolved) (hbad : w.regcomp pattern ≠ 0) :
    (∀ s, match_ w s pattern = 0) ∧
      (∀ s p, match_ w s p ≠ 0 ↔ (w.regcomp p = 0 ∧ w.regexec p s = 0)) ∧
      ∃ o e1, chmod w path mode e = .returned o ∧ o.calls = [(path, mode)] ∧
        o.ret = (orig path mode e1).1 ∧ o.errno = (orig path mode e1).2 ∧
        ((∀ c x, w.errnoAfter c x = x) → e1 = e) := by
  have h0 : ∀ s, match_ w s pattern = 0 := by
    intro s
    simp [match_, hbad]
  refine ⟨h0, ?_, ?_⟩
  · intro s p
    unfold match_
    by_cases hc : w.regcomp p = 0
    · by_cases hx : w.regexec p s = 0 <;> simp [hc, hx]
    · simp [hc]
  · obtain ⟨lib, handle, hlib, hopen, hsym⟩ := hR
    simp only [chmod, hlib, hopen, hsym, hp, hrp, h0 resolved, if_true]
    refine ⟨_, _, rfl, rfl, rfl, rfl, ?_⟩
    intro hid
    simp only [matchErrno_of_preserved w hid, hid]

/-- The pattern `(`, which the engine of the sample world does not compile, the directory
`/var/data` and the mode 777, which the sample masks would reject. -/
theorem malformed_pattern_passes_through_witness :
    (withPattern "(").regcomp "(" ≠ 0 ∧
      ∃ o e1, chmod (withPattern "(") "/var/data" 0o777 0 = .returned o ∧
        o.calls = [("/var/data", 0o777)] ∧
        o.ret = (okChmod "/var/data" 0o777 e1).1 ∧
        o.errno = (okChmod "/var/data" 0o777 e1).2 ∧
        ((∀ c x, (withPattern "(").errnoAfter c x = x) → e1 = 0) :=
  ⟨by decide,
    (malformed_pattern_passes_through (withPattern "(") "/var/data" 0o777 0 okChmod "("
      "/var/data" ⟨"/lib/libc.so.6", 1, by decide, by decide, rfl⟩ (by decide) rfl
      (by decide)).2.2⟩

/-- C15, classification failure is terminal and verbatim: when the real implementation
resolves, the pattern matches the canonical path and `stat` fails with error `err`, the
call returns -1, `errno` is `err` and the real `chmod` is not invoked; the outcome is the
same under every environment that agrees on the locator and the pattern, so no mask key
takes part in it. -/
theorem stat_failure_verbatim (w : World) (path : String) (mode e : Nat)
    (orig : RealChmod) (pattern resolved : String) (err : Nat)
    (hR : Resolves w orig) (hp : w.getenv "LIBCHMOD_PATH_REGEX" = some pattern)
    (hrp : w.realpath path = .ok resolved) (hm : match_ w resolved pattern ≠ 0)
    (hst : w.stat resolved = .error err) :
    (∃ o, chmod w path mode e = .returned o ∧ o.ret = -1 ∧ o.errno = err ∧
        o.calls = []) ∧
      ∀ g : String → Option String,
        g "LIBCHMOD_PATH_LIB_ORIG" = w.getenv "LIBCHMOD_PATH_LIB_ORIG" →
        g "LIBCHMOD_PATH_REGEX" = w.getenv "LIBCHMOD_PATH_REGEX" →
        chmod { w with getenv := g } path mode e = chmod w path mode e := by
  obtain ⟨lib, handle, hlib, hopen, hsym⟩ := hR
  have key : chmod w path mode e = .returned (fail err) := by
    simp only [chmod, hlib, hopen, hsym, hp, hrp, hm, hst, if_false]
  refine ⟨⟨_, key, rfl, rfl, rfl⟩, ?_⟩
  intro g hg1 hg2
  rw [key]
  have hm2 : match_ { w with getenv := g } resolved pattern ≠ 0 := hm
  simp only [chmod, hg1, hg2, hlib, hopen, hsym, hp, hrp, hm2, hst, if_false]

/-- The directory `/var/data` in the sample world with `stat` failing with `EACCES`. -/
theorem stat_failure_verbatim_witness :
    (∃ o, chmod statDenied "/var/data" 0o777 0 = .returned o ∧ o.ret = -1 ∧
        o.errno = 13 ∧ o.calls = []) ∧
      ∀ g : String → Option String,
        g "LIBCHMOD_PATH_LIB_ORIG" = statDenied.getenv "LIBCHMOD_PATH_LIB_ORIG" →
        g "LIBCHMOD_PATH_REGEX" = statDenied.getenv "LIBCHMOD_PATH_REGEX" →
        chmod { statDenied with getenv := g } "/var/data" 0o777 0 =
          chmod statDenied "/var/data" 0o777 0 :=
  stat_failure_verbatim statDenied "/var/data" 0o777 0 okChmod "^/var/" "/var/data" 13
    ⟨"/lib/libc.so.6", 1, by decide, by decide, rfl⟩ (by decide) rfl (by decide) rfl

/-- C16, cross-type independence: when the target is a directory (resp. a regular file),
replacing the environment by one that agrees on the locator, the pattern and the two
directory (resp. file) masks, and is arbitrary on the two masks of the other type, leaves
the way the call ends, the return value, `errno` and the invocations of the real `chmod`
unchanged. -/
theorem cross_type_independent (w : World) (g : String → Option String) (path : String)
    (mode e : Nat) (resolved : String) (st : Nat) (k : Kind)
    (hrp : w.realpath path = .ok resolved) (hst : w.stat resolved = .ok st)
    (hk : k.test st = true)
    (hlib : g "LIBCHMOD_PATH_LIB_ORIG" = w.getenv "LIBCHMOD_PATH_LIB_ORIG")
    (hre : g "LIBCHMOD_PATH_REGEX" = w.getenv "LIBCHMOD_PATH_REGEX")
    (ha : g k.allowedKey = w.getenv k.allowedKey)
    (hr : g k.requiredKey = w.getenv k.requiredKey) :
    chmod { w with getenv := g } path mode e = chmod w path mode e := by
  have hm : ∀ s p, match_ { w with getenv := g } s p = match_ w s p := fun _ _ => rfl
  have hme : ∀ s p x, matchErrno { w with getenv := g } s p x = matchErrno w s p x :=
    fun _ _ _ => rfl
  have hs : endptrStore { w with getenv := g } = endptrStore w := rfl
  cases k with
  | directory =>
    simp only [Kind.test] at hk
    simp only [Kind.allowedKey, Kind.requiredKey] at ha hr
    simp only [chmod, hlib, hre, ha, hr, hrp, hst, hk, hm, hme, hs, if_true]
  | regular =>
    simp only [Kind.test] at hk
    simp only [Kind.allowedKey, Kind.requiredKey] at ha hr
    have hd := not_isdir_of_isreg st hk
    simp only [chmod, hlib, hre, ha, hr, hrp, hst, hk, hd, hm, hme, hs, if_true,
      Bool.false_eq_true, if_false]

/-- The directory `/var/data` of the sample world against the same world with both file
masks unset. -/
theorem cross_type_independent_witness :
    chmod { sampleWorld with getenv := (withMasks (some "2775") (some "775") none none).getenv }
        "/var/data" 0o775 0 = chmod sampleWorld "/var/data" 0o775 0 :=
  cross_type_independent sampleWorld (withMasks (some "2775") (some "775") none none).getenv
    "/var/data" 0o775 0 "/var/data" 0o040755 Kind.directory rfl rfl (by decide)
    (by decide) (by decide) (by decide) (by decide)

/-- C17, policy monotonicity: for two configurations under which the target is a matched
directory (resp. regular file) with both masks configured, if every bit of the first
allowed mask is in the second allowed mask and every bit of the second required mask is in
the first required mask, then a mode whose call is delegated to the real `chmod` under the
first is never rejected under the second: whenever the second call returns, it has
invoked the real `chmod` once on the caller's path and mode and returns its result, not -1
with `EPERM`; and it does return, delegated, when the slot of `endptr` holds the same
value in both calls. -/
theorem policy_monotone (w w2 : World) (path : String) (mode e e2 : Nat)
    (orig orig2 : RealChmod) (st st2 : Nat) (k : Kind) (sa sr sa2 sr2 : String)
    (hM : Matched w path orig st) (hk : k.test st = true)
    (ha : w.getenv k.allowedKey = some sa) (hr : w.getenv k.requiredKey = some sr)
    (hM2 : Matched w2 path orig2 st2) (hk2 : k.test st2 = true)
    (ha2 : w2.getenv k.allowedKey = some sa2) (hr2 : w2.getenv k.requiredKey = some sr2)
    (hA : ∀ i, (strtolValue sa).testBit i = true → (strtolValue sa2).testBit i = true)
    (hR : ∀ i, (strtolValue sr2).testBit i = true → (strtolValue sr).testBit i = true)
    (hallow : ∃ o, chmod w path mode e = .returned o ∧ o.calls = [(path, mode)]) :
    (∀ o2, chmod w2 path mode e2 = .returned o2 →
        o2.calls = [(path, mode)] ∧
          ∃ e1, o2.ret = (orig2 path mode e1).1 ∧ o2.errno = (orig2 path mode e1).2) ∧
      (w2.endptr = w.endptr →
        ∃ o2 e1, chmod w2 path mode e2 = .returned o2 ∧ o2.calls = [(path, mode)] ∧
          o2.ret = (orig2 path mode e1).1 ∧ o2.errno = (orig2 path mode e1).2) := by
  obtain ⟨o, ho, hcalls⟩ := hallow
  obtain ⟨x, hx⟩ := chmod_policed w path mode e orig st k sa sr hM hk ha hr
  obtain ⟨x2, hx2⟩ := chmod_policed w2 path mode e2 orig2 st2 k sa2 sr2 hM2 hk2 ha2 hr2
  rw [ho] at hx
  have hskip : endptrStore w = .skipped := by
    cases hs : endptrStore w with
    | skipped => rfl
    | stray => rw [hs] at hx; exact absurd hx (by simp)
    | fault => rw [hs] at hx; exact absurd hx (by simp)
  have hchk : checkPerms (mode : Int) (strtolValue sa) (strtolValue sr) = none := by
    rw [hskip] at hx
    cases hc : checkPerms (mode : Int) (strtolValue sa) (strtolValue sr) with
    | none => rfl
    | some err =>
      rw [hc] at hx
      have := Run.returned.inj hx
      rw [this] at hcalls
      exact absurd hcalls (by simp [fail])
  obtain ⟨h1, h2⟩ := (checkPerms_eq_none_iff _ _ _).mp hchk
  have s1 := (int_lor_eq_right_iff _ _).mp h1
  have s2 := (int_lor_eq_left_iff _ _).mp h2
  have hchk2 : checkPerms (mode : Int) (strtolValue sa2) (strtolValue sr2) = none :=
    (checkPerms_eq_none_iff _ _ _).mpr
      ⟨(int_lor_eq_right_iff _ _).mpr (fun i hi => hA i (s1 i hi)),
        (int_lor_eq_left_iff _ _).mpr (fun i hi => s2 i (hR i hi))⟩
  rw [hchk2] at hx2
  constructor
  · intro o2 ho2
    rw [ho2] at hx2
    cases hs : endptrStore w2 with
    | skipped =>
      rw [hs] at hx2
      have := Run.returned.inj hx2
      rw [this]
      exact ⟨rfl, x2, rfl, rfl⟩
    | stray => rw [hs] at hx2; exact absurd hx2 (by simp)
    | fault => rw [hs] at hx2; exact absurd hx2 (by simp)
  · intro hptr
    have hskip2 : endptrStore w2 = .skipped :=
      (endptrStore_skipped_iff w2).mpr (hptr.trans ((endptrStore_skipped_iff w).mp hskip))
    rw [hskip2] at hx2
    exact ⟨_, x2, hx2, rfl, rfl, rfl⟩

/-- The regular file `/var/data/f` and the mode 664: delegated under the sample masks
(allowed `775`, required `664`), hence under the wider allowed mask `777` and the narrower
required mask `600`. -/
theorem policy_monotone_witness :
    (∃ o, chmod sampleWorld "/var/data/f" 0o664 0 = .returned o ∧
        o.calls = [("/var/data/f", 0o664)]) ∧
      ∃ o2 e1, chmod (withMasks none none (some "777") (some "600")) "/var/data/f" 0o664 0
          = .returned o2 ∧ o2.calls = [("/var/data/f", 0o664)] ∧
        o2.ret = (okChmod "/var/data/f" 0o664 e1).1 ∧
        o2.errno = (okChmod "/var/data/f" 0o664 e1).2 :=
  ⟨⟨_, rfl, rfl⟩,
    (policy_monotone sampleWorld (withMasks none none (some "777") (some "600"))
      "/var/data/f" 0o664 0 0 okChmod okChmod 0o100644 0o100644 Kind.regular
      "775" "664" "777" "600" sample_matched_file (by decide) (by decide) (by decide)
      ⟨⟨"/lib/libc.so.6", 1, by decide, by decide, rfl⟩,
        "^/var/", "/var/data/f", by decide, rfl, by decide, rfl⟩
      (by decide) (by decide) (by decide)
      ((int_lor_eq_right_iff (strtolValue "775") (strtolValue "777")).mp (by decide))
      ((int_lor_eq_left_iff (strtolValue "664") (strtolValue "600")).mp (by decide))
      ⟨_, rfl, rfl⟩).2 rfl⟩

end Libchmod
